import Mathlib

/-!
Shallow embedding of the scoring / stat-editing core of
`src/public/components/game/details/details.js` (the `<game-details>`
viewmodel of the bitballs application).

Conventions of the embedding:
* JS numbers that hold video times are modelled as `ℚ` (the code only adds,
  subtracts and compares them); the cutoff passed to the running-score
  computation is modelled as `WithTop ℚ` so that the JS value `Infinity`
  (`⊤`) is representable.
* Player identifiers are `ℕ`.
* A JS object used as a dictionary (`playerIdToHomeOrAwayMap`) is modelled
  as an association list with JS-object assignment semantics: assigning to
  an existing key overwrites its value in place, assigning to a fresh key
  appends it.
* Asynchronous callbacks (`stat.save(success, error)`, `window.confirm`,
  `session.isAdmin()`, `player.getCurrentTime()`) become explicit inputs of
  the step functions that model the handlers.
-/

namespace Bitballs

/-- A side of the game; the string values `"home"` / `"away"` stored in
`playerIdToHomeOrAwayMap`. -/
inductive Side where
  | home
  | away
deriving DecidableEq, Repr

/-- A stat record (`bitballs/models/stat`) as used by the `<game-details>`
viewmodel: a player id, a stat type string (`"1P"`, `"2P"`, ...) and a video
time in seconds.  A freshly created candidate (`showStatMenuFor`) has no
type yet; the embedding uses `""` for that, which, like the JS `undefined`,
is neither `"1P"` nor `"2P"` and hence scores nothing. -/
structure Stat where
  playerId : ℕ
  type : String
  time : ℚ
  gameId : ℕ := 0
deriving DecidableEq, Repr

/-- The `{home, away}` score object built by `finalScore` / `currentScore`.
Both fields start at `0` and are only ever incremented by `1` or `2`, so
they are natural numbers. -/
structure Scores where
  home : ℕ
  away : ℕ
deriving DecidableEq, Repr

/-- A team row (`homeTeam` / `awayTeam`): the four player-id slots read by
`playerIdToHomeOrAwayMap` via `game.attr("homeTeam").attr("player"+i+"Id")`. -/
structure Team where
  player1Id : ℕ
  player2Id : ℕ
  player3Id : ℕ
  player4Id : ℕ
deriving DecidableEq, Repr

/-- JS-object property assignment `m[k] = v` on a dictionary modelled as an
association list (keys are unique, as in a JS object): an existing key
keeps its position and gets the new value; a fresh key is appended. -/
def objInsert : List (ℕ × Side) → ℕ → Side → List (ℕ × Side)
  | [], k, v => [(k, v)]
  | p :: m, k, v => if p.1 = k then (k, v) :: m else p :: objInsert m k v

/-- JS-object property read `m[k]`: the stored value, or `none`
(JS `undefined`) when the key is absent. -/
def objLookup (m : List (ℕ × Side)) (k : ℕ) : Option Side :=
  (m.find? (fun p => p.1 = k)).map (fun p => p.2)

/-- `playerIdToHomeOrAwayMap` (details.js lines 185–198): iterates
`i = 1..4` and performs `map[homeTeam.player+i+Id] = "home"` followed by
`map[awayTeam.player+i+Id] = "away"`.  There is no conflict check: a later
assignment to an id already in the map silently overwrites the earlier
side. -/
def playerIdToHomeOrAwayMap (homeTeam awayTeam : Team) : List (ℕ × Side) :=
  let m := objInsert [] homeTeam.player1Id Side.home
  let m := objInsert m awayTeam.player1Id Side.away
  let m := objInsert m homeTeam.player2Id Side.home
  let m := objInsert m awayTeam.player2Id Side.away
  let m := objInsert m homeTeam.player3Id Side.home
  let m := objInsert m awayTeam.player3Id Side.away
  let m := objInsert m homeTeam.player4Id Side.home
  objInsert m awayTeam.player4Id Side.away

/-- The point value a stat type contributes in the two `if` statements of
`finalScore` / `currentScore`: `"1P"` adds 1, `"2P"` adds 2, every other
type adds nothing. -/
def statPoints (type : String) : ℕ :=
  if type = "1P" then 1 else if type = "2P" then 2 else 0

/-- The per-stat update performed inside the `each` loops of `finalScore`
and `currentScore`:
`if (type === "1P") scores[playerMap[playerId]]++;`
`if (type === "2P") scores[playerMap[playerId]] += 2;`.
When `playerMap[playerId]` is `undefined` the JS writes to the junk key
`"undefined"`; the `home` and `away` fields of the scores object are
unchanged, which is what the embedding records. -/
def applyStat (playerMap : ℕ → Option Side) (scores : Scores) (stat : Stat) :
    Scores :=
  match playerMap stat.playerId with
  | some Side.home => { scores with home := scores.home + statPoints stat.type }
  | some Side.away => { scores with away := scores.away + statPoints stat.type }
  | none => scores

/-- A participant id occurs in a team when it sits in one of the four
slots. -/
def Team.memberId (t : Team) (k : ℕ) : Prop :=
  k = t.player1Id ∨ k = t.player2Id ∨ k = t.player3Id ∨ k = t.player4Id

/-- `finalScore` (details.js lines 130–148): totals every stat of the game,
with no time filter. -/
def finalScore (stats : List Stat) (playerMap : ℕ → Option Side) : Scores :=
  stats.foldl (applyStat playerMap) ⟨0, 0⟩

/-- `currentScore` (details.js lines 155–178): totals the stats whose
`time` is `≤` the current video time (inclusive comparison
`stat.attr("time") <= time`).  The cutoff lives in `WithTop ℚ` so that the
JS value `Infinity` is representable as `⊤`. -/
def currentScore (stats : List Stat) (playerMap : ℕ → Option Side)
    (time : WithTop ℚ) : Scores :=
  stats.foldl
    (fun scores stat =>
      if (stat.time : WithTop ℚ) ≤ time then applyStat playerMap scores stat
      else scores)
    ⟨0, 0⟩

/-! ## The editing session (state-machine) part of the viewmodel -/

/-- The editing-session state carried by the viewmodel: the open candidate
stat (`this.attr("stat")`, `none` = Idle) and the committed stats of the
game (`game.attr("stats")`, the EventLog projection). -/
structure SessionState where
  stat : Option Stat
  gameStats : List Stat
deriving DecidableEq, Repr

/-- `showStatMenuFor` (details.js lines 227–242), together with the two
external reads it performs: the capability gate
`this.attr("session") && this.attr("session").isAdmin()` and the clock read
`youtubePlayer.getCurrentTime()`.  Without the capability it returns
immediately (no pause, no candidate); with it, it pauses the video and
installs a fresh candidate stat whose `time` is the clock time at the
instant of the call and whose `playerId` is the selected player's id.
The result's second component records whether `pauseVideo()` was invoked. -/
def showStatMenuFor (hasSession isAdmin : Bool) (clockTime : ℚ)
    (playerId gameId : ℕ) (s : SessionState) : SessionState × Bool :=
  if !hasSession || !isAdmin then (s, false)
  else
    ({ s with
        stat := some { playerId := playerId, type := "", time := clockTime,
                       gameId := gameId } },
     true)

/-- The completion outcome of the asynchronous `stat.save(success, error)`
call: success, or failure with an opaque error payload. -/
inductive SaveResult where
  | success
  | failure (e : String)
deriving DecidableEq, Repr

/-- `createStat` (details.js lines 254–266), modelled at the completion of
the `stat.save` call it issues.  Both callbacks do `removeAttr("stat")`
(the candidate is discarded, the session returns to Idle); the error
callback additionally does `console.log(e)`.  Neither branch touches
`game.attr("stats")` — there is no optimistic insertion, and no retry of
the candidate.  The second component is the list of messages written to the
diagnostic sink (`console.log`). -/
def createStat (s : SessionState) (result : SaveResult) :
    SessionState × List String :=
  match result with
  | SaveResult.success => ({ s with stat := none }, [])
  | SaveResult.failure e => ({ s with stat := none }, [e])

/-- `addTime` (details.js lines 297–299): nudges the candidate's time up.
No clamping is applied. -/
def addTime (delta : ℚ) (s : SessionState) : SessionState :=
  match s.stat with
  | some st => { s with stat := some { st with time := st.time + delta } }
  | none => s

/-- `minusTime` (details.js lines 316–318): nudges the candidate's time
down.  No clamping is applied, so the time can become negative. -/
def minusTime (delta : ℚ) (s : SessionState) : SessionState :=
  match s.stat with
  | some st => { s with stat := some { st with time := st.time - delta } }
  | none => s

/-- `deleteStat` (details.js lines 362–370), with its external inputs made
explicit.  The only gate in the function is `window.confirm(...)`: if the
user declines, it returns with no action; otherwise it calls
`stat.destroy()`.  The `isAdmin` capability is **not** consulted anywhere
in this function (it is an argument here only so that statements about the
capability can be expressed).  The result records whether `destroy` was
invoked and the stats list as left by the function itself (it never mutates
the list; removal on a successful destroy happens in the external store). -/
def deleteStat (isAdmin confirmed : Bool) (stats : List Stat) :
    Bool × List Stat :=
  if !confirmed then (false, stats)
  else (true, stats)

/-! ## Clock / candidate synchronization -/

/-- A JS value read from `this.scope.attr("stat.time")`: either a genuine
number or something that fails the `typeof time === "number"` test
(e.g. `undefined` or `NaN`). -/
inductive JSTime where
  | num (t : ℚ)
  | notNum
deriving DecidableEq, Repr

/-- The body of the `timeUpdate` poll loop inside `onPlayerStateChange`
(details.js lines 500–507), restricted to its effect on the candidate:
while playing, each tick reads `player.getCurrentTime()` and, if a
candidate stat is open, sets its `time` to the clock's current time. -/
def timeUpdate (candidate : Option Stat) (currentTime : ℚ) : Option Stat :=
  match candidate with
  | some st => some { st with time := currentTime }
  | none => none

/-- The `"{stat} time"` change handler (details.js lines 544–556).  It
reads the candidate's `time`; only when that value is a number and `≥ 0`
does it compare it with `player.getCurrentTime()` and, when the absolute
divergence exceeds `2` seconds, call `player.seekTo(time, true)`.  The
result is the seek target, or `none` when no seek is performed. -/
def statTimeHandler (time : JSTime) (playerTime : ℚ) : Option ℚ :=
  match time with
  | JSTime.notNum => none
  | JSTime.num t =>
    if 0 ≤ t then
      if |t - playerTime| > 2 then some t else none
    else
      none

/-! ## Helper lemmas about the JS-object model -/

lemma objLookup_nil (k : ℕ) : objLookup [] k = none := rfl

lemma objLookup_cons (p : ℕ × Side) (m : List (ℕ × Side)) (k : ℕ) :
    objLookup (p :: m) k = if p.1 = k then some p.2 else objLookup m k := by
  by_cases h : p.1 = k <;> simp [objLookup, List.find?_cons, h]

lemma objLookup_objInsert_self (m : List (ℕ × Side)) (k : ℕ) (v : Side) :
    objLookup (objInsert m k v) k = some v := by
  induction m with
  | nil => simp [objInsert, objLookup_cons, objLookup_nil]
  | cons p m ih =>
    by_cases h : p.1 = k
    · simp [objInsert, h, objLookup_cons]
    · simp [objInsert, h, objLookup_cons, ih]

lemma objLookup_objInsert_ne (m : List (ℕ × Side)) (k : ℕ) (v : Side)
    (k' : ℕ) (hne : k ≠ k') :
    objLookup (objInsert m k v) k' = objLookup m k' := by
  induction m with
  | nil => simp [objInsert, objLookup_cons, objLookup_nil, hne]
  | cons p m ih =>
    by_cases h : p.1 = k
    · simp [objInsert, h, objLookup_cons, hne, h ▸ hne]
    · by_cases h' : p.1 = k'
      · simp [objInsert, h, objLookup_cons, h', Ne.symm hne]
      · simp [objInsert, h, objLookup_cons, h', ih]

lemma objLookup_objInsert_isSome (m : List (ℕ × Side)) (k : ℕ) (v : Side)
    (k' : ℕ) (h : (objLookup m k').isSome = true) :
    (objLookup (objInsert m k v) k').isSome = true := by
  by_cases hk : k = k'
  · subst hk; simp [objLookup_objInsert_self]
  · simpa [objLookup_objInsert_ne m k v k' hk] using h

/-! ## C1: role-map construction on conflicting and disjoint rosters -/

/-- C1, counterexample.  The claim says the role-map construction fails
with `RosterConflict` whenever a participant id appears in both rosters.
The source `playerIdToHomeOrAwayMap` has no failure mode: for the rosters
`(1,2,3,4)` and `(4,5,6,7)`, which share id `4`, it returns a 7-entry map
in which the shared id is silently assigned to the last-processed side
(`"home"`, written by the home-slot-4 assignment, which comes after the
away-slot-1 assignment). -/
theorem playerIdToHomeOrAwayMap_conflict_counterexample :
    objLookup (playerIdToHomeOrAwayMap ⟨1, 2, 3, 4⟩ ⟨4, 5, 6, 7⟩) 4
      = some Side.home ∧
    (playerIdToHomeOrAwayMap ⟨1, 2, 3, 4⟩ ⟨4, 5, 6, 7⟩).length = 7 := by
  constructor <;> rfl

/-- C1, amended.  `playerIdToHomeOrAwayMap` never fails: every id present
in either roster (shared ids included) is mapped to some side.  For
disjoint rosters of 4 ids each it produces exactly 8 entries, each roster
id mapped to its own side. -/
theorem playerIdToHomeOrAwayMap_total_and_disjoint :
    (∀ (h a : Team) (k : ℕ), h.memberId k ∨ a.memberId k →
      (objLookup (playerIdToHomeOrAwayMap h a) k).isSome = true) ∧
    (∀ h a : Team,
      ([h.player1Id, h.player2Id, h.player3Id, h.player4Id,
        a.player1Id, a.player2Id, a.player3Id, a.player4Id] : List ℕ).Nodup →
      (playerIdToHomeOrAwayMap h a).length = 8 ∧
      objLookup (playerIdToHomeOrAwayMap h a) h.player1Id = some Side.home ∧
      objLookup (playerIdToHomeOrAwayMap h a) h.player2Id = some Side.home ∧
      objLookup (playerIdToHomeOrAwayMap h a) h.player3Id = some Side.home ∧
      objLookup (playerIdToHomeOrAwayMap h a) h.player4Id = some Side.home ∧
      objLookup (playerIdToHomeOrAwayMap h a) a.player1Id = some Side.away ∧
      objLookup (playerIdToHomeOrAwayMap h a) a.player2Id = some Side.away ∧
      objLookup (playerIdToHomeOrAwayMap h a) a.player3Id = some Side.away ∧
      objLookup (playerIdToHomeOrAwayMap h a) a.player4Id = some Side.away) := by
  constructor
  · intro h a k hk
    simp only [playerIdToHomeOrAwayMap]
    rcases hk with (hk | hk | hk | hk) | (hk | hk | hk | hk) <;> subst hk <;>
      (repeat first
        | rw [objLookup_objInsert_self]
        | apply objLookup_objInsert_isSome) <;> rfl
  · intro h a hd
    simp only [List.nodup_cons, List.mem_cons, List.mem_singleton, not_or,
      List.nodup_nil, and_true, List.not_mem_nil, not_false_iff] at hd
    obtain ⟨⟨e12, e13, e14, e15, e16, e17, e18⟩,
      ⟨e23, e24, e25, e26, e27, e28⟩, ⟨e34, e35, e36, e37, e38⟩,
      ⟨e45, e46, e47, e48⟩, ⟨e56, e57, e58⟩, ⟨e67, e68⟩, e78⟩ := hd
    have hmap : playerIdToHomeOrAwayMap h a =
        [(h.player1Id, Side.home), (a.player1Id, Side.away),
         (h.player2Id, Side.home), (a.player2Id, Side.away),
         (h.player3Id, Side.home), (a.player3Id, Side.away),
         (h.player4Id, Side.home), (a.player4Id, Side.away)] := by
      simp [playerIdToHomeOrAwayMap, objInsert,
        e12, e13, e14, e15, e16, e17, e18, e23, e24, e25, e26, e27, e28,
        e34, e35, e36, e37, e38, e45, e46, e47, e48, e56, e57, e58,
        e67, e68, e78,
        Ne.symm e12, Ne.symm e13, Ne.symm e14, Ne.symm e15, Ne.symm e16,
        Ne.symm e17, Ne.symm e18, Ne.symm e23, Ne.symm e24, Ne.symm e25,
        Ne.symm e26, Ne.symm e27, Ne.symm e28, Ne.symm e34, Ne.symm e35,
        Ne.symm e36, Ne.symm e37, Ne.symm e38, Ne.symm e45, Ne.symm e46,
        Ne.symm e47, Ne.symm e48, Ne.symm e56, Ne.symm e57, Ne.symm e58,
        Ne.symm e67, Ne.symm e68, Ne.symm e78]
    rw [hmap]
    refine ⟨rfl, ?_, ?_, ?_, ?_, ?_, ?_, ?_, ?_⟩ <;>
      simp [objLookup_cons,
        e12, e13, e14, e15, e16, e17, e18, e23, e24, e25, e26, e27, e28,
        e34, e35, e36, e37, e38, e45, e46, e47, e48, e56, e57, e58,
        e67, e68, e78,
        Ne.symm e12, Ne.symm e13, Ne.symm e14, Ne.symm e15, Ne.symm e16,
        Ne.symm e17, Ne.symm e18, Ne.symm e23, Ne.symm e24, Ne.symm e25,
        Ne.symm e26, Ne.symm e27, Ne.symm e28, Ne.symm e34, Ne.symm e35,
        Ne.symm e36, Ne.symm e37, Ne.symm e38, Ne.symm e45, Ne.symm e46,
        Ne.symm e47, Ne.symm e48, Ne.symm e56, Ne.symm e57, Ne.symm e58,
        Ne.symm e67, Ne.symm e68, Ne.symm e78]

/-- C1, witness for the amended theorem: both parts instantiated on the
disjoint rosters `(1,2,3,4)` / `(5,6,7,8)`. -/
theorem playerIdToHomeOrAwayMap_total_and_disjoint_witness :
    (objLookup (playerIdToHomeOrAwayMap ⟨1, 2, 3, 4⟩ ⟨5, 6, 7, 8⟩)
        1).isSome = true ∧
    (playerIdToHomeOrAwayMap ⟨1, 2, 3, 4⟩ ⟨5, 6, 7, 8⟩).length = 8 :=
  ⟨playerIdToHomeOrAwayMap_total_and_disjoint.1 ⟨1, 2, 3, 4⟩ ⟨5, 6, 7, 8⟩ 1
      (Or.inl (Or.inl rfl)),
    (playerIdToHomeOrAwayMap_total_and_disjoint.2 ⟨1, 2, 3, 4⟩ ⟨5, 6, 7, 8⟩
      (by decide)).1⟩

/-! ## C2: finalScore refines scoreAt with an infinite cutoff -/

lemma foldl_applyStat_eq (pm : ℕ → Option Side) (stats : List Stat) :
    ∀ init : Scores,
      stats.foldl (applyStat pm) init =
        ⟨init.home +
          ((stats.filter (fun st => pm st.playerId = some Side.home)).map
            (fun st => statPoints st.type)).sum,
         init.away +
          ((stats.filter (fun st => pm st.playerId = some Side.away)).map
            (fun st => statPoints st.type)).sum⟩ := by
  induction stats with
  | nil => intro init; simp
  | cons st rest ih =>
    intro init
    rw [List.foldl_cons, ih]
    rcases hpm : pm st.playerId with _ | s
    · simp [applyStat, hpm, List.filter_cons]
    · cases s
      · simp [applyStat, hpm, List.filter_cons, Nat.add_assoc]
      · simp [applyStat, hpm, List.filter_cons, Nat.add_assoc]

/-- C2.  `finalScore` (the unfiltered total) agrees with `currentScore`
(the cutoff-filtered total) at the infinite cutoff `⊤`, and both equal the
sum of the point values of the mapped events partitioned by side. -/
theorem finalScore_eq_currentScore_top :
    ∀ (stats : List Stat) (pm : ℕ → Option Side),
      finalScore stats pm = currentScore stats pm ⊤ ∧
      finalScore stats pm =
        ⟨((stats.filter (fun st => pm st.playerId = some Side.home)).map
            (fun st => statPoints st.type)).sum,
         ((stats.filter (fun st => pm st.playerId = some Side.away)).map
            (fun st => statPoints st.type)).sum⟩ := by
  intro stats pm
  constructor
  · simp [finalScore, currentScore, le_top]
  · rw [finalScore, foldl_applyStat_eq]
    simp

/-! ## C3: events unmapped by the role map are skipped -/

lemma applyStat_unmapped (pm : ℕ → Option Side) (sc : Scores) (st : Stat)
    (h : pm st.playerId = none) : applyStat pm sc st = sc := by
  simp [applyStat, h]

/-- C3.  An event whose participant is absent from the role map contributes
nothing to either side's total, in both the cutoff-filtered and the
unconditional aggregation, and raises no error; it still appears in the
full event sequence. -/
theorem unmapped_event_skipped (stats₁ stats₂ : List Stat)
    (pm : ℕ → Option Side) (t : WithTop ℚ) (st : Stat)
    (hun : pm st.playerId = none) :
    currentScore (stats₁ ++ st :: stats₂) pm t
      = currentScore (stats₁ ++ stats₂) pm t ∧
    finalScore (stats₁ ++ st :: stats₂) pm = finalScore (stats₁ ++ stats₂) pm ∧
    st ∈ stats₁ ++ st :: stats₂ := by
  refine ⟨?_, ?_, by simp⟩
  · simp [currentScore, List.foldl_append, applyStat_unmapped, hun]
  · simp [finalScore, List.foldl_append, applyStat_unmapped, hun]

/-- C3, witness: a `2P` stat of the unmapped player `9` changes neither the
running score at cutoff `50` nor the final score, while remaining in the
event list. -/
theorem unmapped_event_skipped_witness :
    currentScore [⟨1, "1P", 10, 0⟩, ⟨9, "2P", 20, 0⟩, ⟨2, "2P", 30, 0⟩]
        (fun n => if n = 1 then some Side.home
                  else if n = 2 then some Side.away else none) 50
      = currentScore [⟨1, "1P", 10, 0⟩, ⟨2, "2P", 30, 0⟩]
        (fun n => if n = 1 then some Side.home
                  else if n = 2 then some Side.away else none) 50 ∧
    finalScore [⟨1, "1P", 10, 0⟩, ⟨9, "2P", 20, 0⟩, ⟨2, "2P", 30, 0⟩]
        (fun n => if n = 1 then some Side.home
                  else if n = 2 then some Side.away else none)
      = finalScore [⟨1, "1P", 10, 0⟩, ⟨2, "2P", 30, 0⟩]
        (fun n => if n = 1 then some Side.home
                  else if n = 2 then some Side.away else none) ∧
    (⟨9, "2P", 20, 0⟩ : Stat)
      ∈ [⟨1, "1P", 10, 0⟩, ⟨9, "2P", 20, 0⟩, ⟨2, "2P", 30, 0⟩] :=
  unmapped_event_skipped [⟨1, "1P", 10, 0⟩] [⟨2, "2P", 30, 0⟩]
    (fun n => if n = 1 then some Side.home
              else if n = 2 then some Side.away else none) 50
    ⟨9, "2P", 20, 0⟩ rfl

/-! ## C4: inclusive cutoff boundary, scenario A, empty log -/

/-- C4.  The cutoff comparison `stat.attr("time") <= time` is inclusive:
an event whose timestamp equals the cutoff is counted exactly as in the
unfiltered total.  On the scenario-A log
`[{1P, t=10, home}, {2P, t=20, away}, {1P, t=30, home}]` the running score
at cutoff `20` is `{home:1, away:2}` and the final score is
`{home:2, away:2}`; the empty log yields `{home:0, away:0}`. -/
theorem currentScore_inclusive_boundary :
    (∀ (pm : ℕ → Option Side) (st : Stat),
      currentScore [st] pm (st.time : WithTop ℚ) = finalScore [st] pm) ∧
    currentScore [⟨1, "1P", 10, 0⟩, ⟨2, "2P", 20, 0⟩, ⟨3, "1P", 30, 0⟩]
      (fun n => if n = 1 then some Side.home
                else if n = 2 then some Side.away
                else if n = 3 then some Side.home else none) 20 = ⟨1, 2⟩ ∧
    finalScore [⟨1, "1P", 10, 0⟩, ⟨2, "2P", 20, 0⟩, ⟨3, "1P", 30, 0⟩]
      (fun n => if n = 1 then some Side.home
                else if n = 2 then some Side.away
                else if n = 3 then some Side.home else none) = ⟨2, 2⟩ ∧
    (∀ (pm : ℕ → Option Side) (t : WithTop ℚ), currentScore [] pm t = ⟨0, 0⟩) := by
  refine ⟨?_, by decide, by decide, ?_⟩
  · intro pm st
    simp [currentScore, finalScore]
  · intro pm t
    rfl

/-! ## C5: commit failure recovers atomically -/

/-- C5.  When the `stat.save` call issued by `createStat` fails, the error
callback discards the candidate (`removeAttr("stat")`, returning the
session to Idle), leaves the committed stats list untouched (no optimistic
insertion ever happened), and only writes the error to the diagnostic sink
(`console.log`); nothing in the branch re-issues the save or escalates. -/
theorem createStat_failure_recovers (s : SessionState) (e : String) :
    (createStat s (SaveResult.failure e)).1.stat = none ∧
    (createStat s (SaveResult.failure e)).1.gameStats = s.gameStats ∧
    (createStat s (SaveResult.failure e)).2 = [e] :=
  ⟨rfl, rfl, rfl⟩

/-! ## C6: deleteStat gates -/

/-- C6, counterexample.  The claim says the persistence delete is issued
only when the caller holds the editing capability **and** the confirmation
returns yes, with a loud capability denial otherwise.  The source
`deleteStat` consults only `window.confirm`: with no capability
(`isAdmin = false`) but a positive confirmation, `stat.destroy()` is
invoked anyway, so the conjunction of gates does not hold. -/
theorem deleteStat_capability_counterexample :
    ¬ (∀ (isAdmin confirmed : Bool) (stats : List Stat),
        (deleteStat isAdmin confirmed stats).1 = true →
          isAdmin = true ∧ confirmed = true) := by
  intro hclaim
  exact absurd (hclaim false true [] rfl).1 (by decide)

/-- C6, amended.  `deleteStat`'s only gate is the confirmation:
`stat.destroy()` is invoked exactly when `window.confirm` returns yes.
When confirmation is declined the function returns at once, the stats list
is untouched and no delete call is issued.  The function performs no
capability check of its own, so a capability denial is never reported
(loudly or otherwise) — any capability gating lives outside this
function. -/
theorem deleteStat_confirm_gate (isAdmin : Bool) (stats : List Stat) :
    deleteStat isAdmin false stats = (false, stats) ∧
    (deleteStat isAdmin true stats).1 = true :=
  ⟨rfl, rfl⟩

/-! ## C7: beginEdit capability gate and candidate seeding -/

/-- C7.  `showStatMenuFor` without a session, or with a session lacking the
admin capability, is a silent no-op: the viewmodel state (including the
absence of a candidate) is unchanged and `pauseVideo()` is not invoked.
With the capability it pauses the video and installs a candidate whose
`time` is the player clock's current time at the instant of the call and
whose `playerId` is the selected player's id. -/
theorem showStatMenuFor_gate_and_seed :
    (∀ (isAdmin : Bool) (ct : ℚ) (pid gid : ℕ) (s : SessionState),
      showStatMenuFor false isAdmin ct pid gid s = (s, false)) ∧
    (∀ (hasSession : Bool) (ct : ℚ) (pid gid : ℕ) (s : SessionState),
      showStatMenuFor hasSession false ct pid gid s = (s, false)) ∧
    (∀ (ct : ℚ) (pid gid : ℕ) (s : SessionState),
      showStatMenuFor true true ct pid gid s =
        ({ s with stat := some ⟨pid, "", ct, gid⟩ }, true)) := by
  refine ⟨fun _ _ _ _ _ => rfl, fun hs _ _ _ _ => ?_, fun _ _ _ _ => rfl⟩
  cases hs <;> rfl

/-! ## C8: the running score is monotone in the cutoff -/

lemma applyStat_le_home (pm : ℕ → Option Side) (sc : Scores) (st : Stat) :
    sc.home ≤ (applyStat pm sc st).home := by
  rcases h : pm st.playerId with _ | s
  · simp [applyStat, h]
  · cases s <;> simp [applyStat, h]

lemma applyStat_le_away (pm : ℕ → Option Side) (sc : Scores) (st : Stat) :
    sc.away ≤ (applyStat pm sc st).away := by
  rcases h : pm st.playerId with _ | s
  · simp [applyStat, h]
  · cases s <;> simp [applyStat, h]

lemma applyStat_mono (pm : ℕ → Option Side) (st : Stat) {a b : Scores}
    (hh : a.home ≤ b.home) (ha : a.away ≤ b.away) :
    (applyStat pm a st).home ≤ (applyStat pm b st).home ∧
    (applyStat pm a st).away ≤ (applyStat pm b st).away := by
  rcases h : pm st.playerId with _ | s
  · simp [applyStat, h, hh, ha]
  · cases s <;> simp [applyStat, h, hh, ha]

lemma foldl_cutoff_mono (pm : ℕ → Option Side) (t₁ t₂ : WithTop ℚ)
    (ht : t₁ ≤ t₂) (stats : List Stat) :
    ∀ (a b : Scores), a.home ≤ b.home → a.away ≤ b.away →
      (stats.foldl
        (fun scores stat =>
          if (stat.time : WithTop ℚ) ≤ t₁ then applyStat pm scores stat
          else scores) a).home ≤
      (stats.foldl
        (fun scores stat =>
          if (stat.time : WithTop ℚ) ≤ t₂ then applyStat pm scores stat
          else scores) b).home ∧
      (stats.foldl
        (fun scores stat =>
          if (stat.time : WithTop ℚ) ≤ t₁ then applyStat pm scores stat
          else scores) a).away ≤
      (stats.foldl
        (fun scores stat =>
          if (stat.time : WithTop ℚ) ≤ t₂ then applyStat pm scores stat
          else scores) b).away := by
  induction stats with
  | nil => intro a b hh ha; exact ⟨hh, ha⟩
  | cons st rest ih =>
    intro a b hh ha
    rw [List.foldl_cons, List.foldl_cons]
    by_cases h₁ : (st.time : WithTop ℚ) ≤ t₁
    · have h₂ : (st.time : WithTop ℚ) ≤ t₂ := le_trans h₁ ht
      rw [if_pos h₁, if_pos h₂]
      obtain ⟨mh, ma⟩ := applyStat_mono pm st hh ha
      exact ih _ _ mh ma
    · rw [if_neg h₁]
      by_cases h₂ : (st.time : WithTop ℚ) ≤ t₂
      · rw [if_pos h₂]
        exact ih _ _ (le_trans hh (applyStat_le_home pm b st))
          (le_trans ha (applyStat_le_away pm b st))
      · rw [if_neg h₂]
        exact ih _ _ hh ha

/-- C8.  With the (always non-negative) point values of the source's stat
types, the running score is monotone in the cutoff: raising the cutoff
never lowers either side's total. -/
theorem currentScore_monotone (stats : List Stat) (pm : ℕ → Option Side)
    (t₁ t₂ : WithTop ℚ) (ht : t₁ < t₂) :
    (currentScore stats pm t₁).home ≤ (currentScore stats pm t₂).home ∧
    (currentScore stats pm t₁).away ≤ (currentScore stats pm t₂).away := by
  rw [currentScore, currentScore]
  exact foldl_cutoff_mono pm t₁ t₂ (le_of_lt ht) stats ⟨0, 0⟩ ⟨0, 0⟩
    (le_refl 0) (le_refl 0)

/-- C8, witness: on a one-event log at `t=15` the totals at cutoff `10`
are bounded by the totals at cutoff `20`. -/
theorem currentScore_monotone_witness :
    (currentScore [⟨1, "1P", 15, 0⟩] (fun _ => some Side.home) 10).home ≤
      (currentScore [⟨1, "1P", 15, 0⟩] (fun _ => some Side.home) 20).home ∧
    (currentScore [⟨1, "1P", 15, 0⟩] (fun _ => some Side.home) 10).away ≤
      (currentScore [⟨1, "1P", 15, 0⟩] (fun _ => some Side.home) 20).away :=
  currentScore_monotone [⟨1, "1P", 15, 0⟩] (fun _ => some Side.home) 10 20
    (by decide)

/-! ## C9: divergence-gated two-way binding -/

/-- C9, counterexample.  The claim says a candidate-timestamp change
re-seeks the clock **iff** the divergence from the clock exceeds 2 seconds.
At candidate time `-10` and clock time `0` the divergence is `10 > 2`, yet
the handler performs no seek, because its `time >= 0` guard fails first
(negative times are reachable through the unclamped nudges). -/
theorem statTimeHandler_iff_counterexample :
    statTimeHandler (JSTime.num (-10)) 0 = none ∧ |(-10 : ℚ) - 0| > 2 := by
  constructor
  · rfl
  · norm_num

/-- C9, amended.  For candidate timestamps that pass the handler's
validity guard (a number, `≥ 0`), the re-seek fires exactly when the
divergence from the clock exceeds the 2-second tolerance, and it seeks to
the candidate's time; divergences of at most 2 seconds never trigger a
seek.  In the other direction, each playback tick with an open candidate
sets the candidate's time to the clock's current time. -/
theorem statTimeHandler_tolerance (t playerTime : ℚ) (h : 0 ≤ t) :
    (statTimeHandler (JSTime.num t) playerTime
      = if |t - playerTime| > 2 then some t else none) ∧
    (∀ (st : Stat) (ct : ℚ), timeUpdate (some st) ct
      = some { st with time := ct }) := by
  constructor
  · simp [statTimeHandler, h]
  · intro st ct
    rfl

/-- C9, witness: candidate time `10` against clock time `0` (divergence
`10 > 2`) re-seeks to `10`. -/
theorem statTimeHandler_tolerance_witness :
    statTimeHandler (JSTime.num 10) 0
      = if |(10 : ℚ) - 0| > 2 then some 10 else none :=
  (statTimeHandler_tolerance 10 0 (by norm_num)).1

/-! ## C10: the handler never seeks to an invalid time -/

/-- C10.  The `"{stat} time"` handler performs no seek when the candidate's
time is not a number or is negative; consequently every seek it does
perform targets a numeric time `≥ 0` — the clock is never re-seeked to a
negative position. -/
theorem statTimeHandler_no_negative_seek :
    (∀ pt : ℚ, statTimeHandler JSTime.notNum pt = none) ∧
    (∀ (t pt : ℚ), t < 0 → statTimeHandler (JSTime.num t) pt = none) ∧
    (∀ (time : JSTime) (pt x : ℚ), statTimeHandler time pt = some x →
      0 ≤ x ∧ time = JSTime.num x) := by
  refine ⟨fun _ => rfl, ?_, ?_⟩
  · intro t pt ht
    simp [statTimeHandler, not_le.mpr ht]
  · intro time pt x hseek
    cases time with
    | notNum => exact absurd hseek (by simp [statTimeHandler])
    | num t =>
      by_cases h0 : 0 ≤ t
      · by_cases hd : |t - pt| > 2
        · simp only [statTimeHandler, if_pos h0, if_pos hd,
            Option.some.injEq] at hseek
          subst hseek
          exact ⟨h0, rfl⟩
        · simp [statTimeHandler, if_pos h0, if_neg hd] at hseek
      · simp [statTimeHandler, if_neg h0] at hseek

/-- C10, witness: a nudge to `-1` performs no seek, while the valid time
`5` at clock time `0` seeks to the non-negative target `5`. -/
theorem statTimeHandler_no_negative_seek_witness :
    statTimeHandler (JSTime.num (-1)) 0 = none ∧
    ((0 : ℚ) ≤ 5 ∧ JSTime.num (5 : ℚ) = JSTime.num 5) :=
  ⟨statTimeHandler_no_negative_seek.2.1 (-1) 0 (by norm_num),
    statTimeHandler_no_negative_seek.2.2 (JSTime.num 5) 0 5
      (by norm_num [statTimeHandler])⟩

end Bitballs
